import Mathlib

/-!
Shallow embedding of the CS5500-Server social-post service ("Tuiter").

The embedding covers the subsystems the specification calls the core:
identity resolution and enforcement, the engagement ledger (like toggles
with a derived like count), media intake (upload limits and the
image/video mutual-exclusion rule), and the media reconciler (orphaned
remote-object garbage collection).

External collaborators (MongoDB via mongoose, the Cloudinary object
store, the express session) are modelled as explicit state: an in-memory
`DB` of collections, an `Option User` session, and a pure uploader
function `String → String` mapping an encoded asset to its secure URL.
Endpoints return the updated state together with an `Except AppError`
outcome, and where a claim is about which external operations run, a
trace of those operations is returned as well.
-/

namespace Tuiter

/-- The error taxonomy of `src/errors/CustomErrors.ts`.  `jsTypeError`
is not one of the declared error classes: it models an uncaught
JavaScript `TypeError` (property access on `null`), which escapes the
handler chain instead of reaching `next`. -/
inductive AppError where
  | noSuchUser
  | noSuchTuit
  | noUserLoggedIn
  | userAlreadyExists
  | incorrectCredential
  | emptyTuit
  | invalidInput
  | multiTypeMedia
  | mediaContentExceedsLimit
  | noPermission
  | jsTypeError
deriving DecidableEq, Repr

deriving instance DecidableEq for Except

/-- Tuit statistics (`stats` subdocument); only `likes` matters to the
specified core. -/
structure Stats where
  likes : Nat
deriving DecidableEq, Repr

/-- A tuit document (`models/tuits/Tuit`): text, owner id, image URL
list, video URL list, and the derived stats. -/
structure Tuit where
  _id : String
  postedBy : String
  tuit : String
  image : List String
  video : List String
  stats : Stats
deriving DecidableEq, Repr

/-- A like document (`LikeModel`): the (tuit, likedBy) pair is the
natural key. -/
structure Like where
  tuit : String
  likedBy : String
deriving DecidableEq, Repr

/-- A user document (`mongoose/users/UserSchema`); fields beyond the
core (email, bio, ...) are omitted as they never influence the
specified behaviour. -/
structure User where
  _id : String
  username : String
  password : String
  profilePhoto : String
  headerImage : String
deriving DecidableEq, Repr

/-- The document store: the three collections the core touches, plus
the admins collection consulted by `AdminDao.findAdmin`
(`admins` holds the admin usernames). -/
structure DB where
  tuits : List Tuit
  likes : List Like
  users : List User
  admins : List String
deriving DecidableEq, Repr

/-- `MY`, the "myself" sentinel from `utils/constants`
(`req.params.uid === "my"` in `AuthenticationController.getUserId`). -/
def MY : String := "my"

/-- `IMAGE_LIMIT` from `utils/constants`: at most 6 images
(`upload.fields([{name: IMAGE_FIELD, maxCount: 6}, ...])`,
`newImageCount > 6`). -/
def IMAGE_LIMIT : Nat := 6

/-- `VIDEO_LIMIT` from `utils/constants`: at most 1 video. -/
def VIDEO_LIMIT : Nat := 1

/-! ## Document-store DAO operations -/

/-- `TuitDao.findTuitById` — `TuitModel.findById(tid)`. -/
def findTuitById (tid : String) (db : DB) : Option Tuit :=
  db.tuits.find? (fun t => t._id == tid)

/-- `TuitDao.findTuitOwnedByUser` —
`TuitModel.findOne({postedBy: uid, _id: tid})`. -/
def findTuitOwnedByUser (uid tid : String) (db : DB) : Option Tuit :=
  db.tuits.find? (fun t => t.postedBy == uid && t._id == tid)

/-- `UserDao.findUserById` — `UserModel.findById(uid)`. -/
def findUserById (uid : String) (db : DB) : Option User :=
  db.users.find? (fun u => u._id == uid)

/-- `UserDao.findUserByUsername` — `UserModel.findOne({username})`. -/
def findUserByUsername (uname : String) (db : DB) : Option User :=
  db.users.find? (fun u => u.username == uname)

/-- `LikeDao.findUserAlreadyLikedTuit` —
`LikeModel.findOne({tuit: tid, likedBy: uid})`. -/
def findUserAlreadyLikedTuit (uid tid : String) (db : DB) : Option Like :=
  db.likes.find? (fun l => l.tuit == tid && l.likedBy == uid)

/-- `LikeDao.userLikesTuit` — `LikeModel.create({tuit: tid, likedBy: uid})`. -/
def userLikesTuit (uid tid : String) (db : DB) : DB :=
  { db with likes := db.likes ++ [{ tuit := tid, likedBy := uid }] }

/-- `LikeDao.userUnlikesTuit` —
`LikeModel.deleteOne({tuit: tid, likedBy: uid})`: removes the first
matching document. -/
def userUnlikesTuit (uid tid : String) (db : DB) : DB :=
  { db with likes := db.likes.eraseP (fun l => l.tuit == tid && l.likedBy == uid) }

/-- `LikeDao.findHowManyLikedTuit` —
`LikeModel.countDocuments({tuit: tid})`. -/
def findHowManyLikedTuit (tid : String) (db : DB) : Nat :=
  (db.likes.filter (fun l => l.tuit == tid)).length

/-- `TuitDao.updateTuit` — `TuitModel.updateOne({_id: tid}, {$set: tuit})`
where the caller passes a whole tuit document: the stored document with
that id takes the given field values. -/
def updateTuitDao (tid : String) (tuit : Tuit) (db : DB) : DB :=
  { db with tuits := db.tuits.map (fun t => if t._id == tid then tuit else t) }

/-- `TuitDao.deleteTuit` — `TuitModel.deleteOne({_id: tid})`: removes the
first document with that id. -/
def deleteTuitDao (tid : String) (db : DB) : DB :=
  { db with tuits := db.tuits.eraseP (fun t => t._id == tid) }

/-- `TuitDao.createTuitByUser` — `TuitModel.create({...tuit, postedBy: uid})`;
the store generates the new document's id (`newId` here). -/
def createTuitDao (uid newId : String) (text : String) (image video : List String)
    (db : DB) : DB :=
  { db with tuits := db.tuits ++
      [{ _id := newId, postedBy := uid, tuit := text, image := image,
         video := video, stats := { likes := 0 } }] }

/-! ## Identity resolution

`AuthenticationController.checkLogin`, `isAdmin`, `isValidId` and the
profile-taking `getUserId` are called throughout the controllers but
their defining file is not among the sources; they are modelled from
the spec (§4.1). -/

/-- Modelled from the spec: `AuthenticationController.checkLogin` is
absent from the sources.  §4.1 `resolvePrincipal(session) → Principal`
fails with `NotAuthenticated` (`NoUserLoggedInError`) if no
session-bound principal exists. -/
def checkLogin (session : Option User) : Except AppError User :=
  match session with
  | some profile => .ok profile
  | none => .error .noUserLoggedIn

/-- Modelled from the spec: `AuthenticationController.isAdmin(username)`
is absent from the sources.  §4.4 makes reconciliation ADMIN-only and
`AdminDao.findAdmin` looks an admin up by username
(`AdminModel.findOne({username: uname})`), so `isAdmin` is membership
of the username in the admins collection. -/
def isAdmin (uname : String) (db : DB) : Bool :=
  db.admins.contains uname

/-- Modelled from the spec: `AuthenticationController.isValidId` is
absent from the sources.  §4.1 `isValidId(candidate)` is a structural
(format-only) validity check of an id; ids are MongoDB ObjectIds, i.e.
24 lowercase hexadecimal characters. -/
def isValidId (s : String) : Bool :=
  s.length == 24 && s.toList.all (fun c => c.isDigit || ('a' ≤ c && c ≤ 'f'))

/-- Modelled from the spec: the profile-taking
`AuthenticationController.getUserId(req, profile)` is absent from the
sources.  §4.1 `resolveTargetId(requestedId, session)`: if
`requestedId` is the "myself" sentinel, substitute the session
principal's id (failing with `NotAuthenticated` when there is none);
otherwise return `requestedId` verbatim. -/
def getUserId (requestedId : String) (profile : Option User) : Except AppError String :=
  if requestedId == MY then
    match profile with
    | some p => .ok p._id
    | none => .error .noUserLoggedIn
  else .ok requestedId

namespace Legacy

/-- `AuthenticationController.getUserId` (the static member defined in
`src/controllers/AuthenticationController.ts` lines 93-103): substitute
the session profile's id when the path parameter is `"my"` and a
profile exists; if the resulting id is still `"my"`, fail with
`NoUserLoggedInError`. -/
def getUserId (uidParam : String) (session : Option User) : Except AppError String :=
  let userId :=
    match session with
    | some profile => if uidParam == MY then profile._id else uidParam
    | none => uidParam
  if userId == MY then .error .noUserLoggedIn else .ok userId

end Legacy

/-! ## Login (`AuthenticationController.login`) -/

/-- The login request body: either credential field may be missing (or
empty, which JavaScript treats as falsy just like absence). -/
structure Credentials where
  username : Option String
  password : Option String
deriving DecidableEq, Repr

/-- Truthiness of an optional string field (`!user.username`):
absent or empty is falsy. -/
def truthyField : Option String → Bool
  | some s => !(s == "")
  | none => false

/-- `AuthenticationController.login`
(`src/controllers/AuthenticationController.ts` lines 24-48).
`compare` models `bcrypt.compare` (plaintext → stored digest → match).
Returns the response (the redacted user on success) and the session
after the call.  When no user has the given username, the original code
dereferences `existingUser.password` on `null`; that uncaught
`TypeError` is modelled as `jsTypeError`. -/
def login (body : Credentials) (compare : String → String → Bool)
    (session : Option User) (db : DB) : Except AppError User × Option User :=
  if !(truthyField body.username) || !(truthyField body.password) then
    (.error .invalidInput, session)
  else
    let username := body.username.getD ""
    let password := body.password.getD ""
    match findUserByUsername username db with
    | none => (.error .jsTypeError, session)
    | some existingUser =>
      if compare password existingUser.password then
        let redacted := { existingUser with password := "******" }
        (.ok redacted, some redacted)
      else
        (.error .noSuchUser, session)

/-! ## Engagement ledger (`LikeController.userTogglesLikesTuit`) -/

/-- `LikeController.userTogglesLikesTuit` (the like-toggle endpoint,
lines 130-158 of the controller source): resolve the acting user, check
the tuit exists, delete or insert the like record by its natural key,
then recompute the like count from the like collection and persist it
onto the tuit. -/
def userTogglesLikesTuit (session : Option User) (uidParam tid : String)
    (db : DB) : Except AppError Unit × DB :=
  match checkLogin session with
  | .error e => (.error e, db)
  | .ok profile =>
    match getUserId uidParam (some profile) with
    | .error e => (.error e, db)
    | .ok userId =>
      if userId == MY then (.error .invalidInput, db)
      else
        match findTuitById tid db with
        | none => (.error .noSuchTuit, db)
        | some tuit =>
          let db1 :=
            if (findUserAlreadyLikedTuit userId tid db).isSome then
              userUnlikesTuit userId tid db
            else
              userLikesTuit userId tid db
          let tuit1 := { tuit with stats := { likes := findHowManyLikedTuit tid db1 } }
          (.ok (), updateTuitDao tid tuit1 db1)

/-! ## Media intake (`CloudinaryDao.uploadMedia` and the tuit write
endpoints of the tuit controller) -/

/-- A multer in-memory file (`Express.Multer.File`): MIME type plus the
buffer contents, the latter already in its base64 rendering
(`f.buffer.toString("base64")`). -/
structure MFile where
  mimetype : String
  base64 : String
deriving DecidableEq, Repr

/-- The data-URI encoding the DAO builds for each asset. -/
def dataUri (f : MFile) : String :=
  "data:" ++ f.mimetype ++ ";base64," ++ f.base64

/-- `CloudinaryDao.uploadMedia` (`src/daos/CloudinaryDao.ts` lines
19-35).  `assets` is `none` when the request carried no file of the
kind (`!assets`).  `up` models `cloudinary.uploader.upload` returning
the response's `secure_url`; the second component is the trace of
upload calls issued (the encoded buffers, in order). -/
def uploadMedia (assets : Option (List MFile)) (limit : Nat)
    (up : String → String) : Except AppError (List String) × List String :=
  match assets with
  | none => (.ok [], [])
  | some fs =>
    if fs.length > limit then (.error .mediaContentExceedsLimit, [])
    else
      let mediaBuffers := fs.map dataUri
      (.ok (mediaBuffers.map up), mediaBuffers)

/-- The `req.files` map produced by
`upload.fields([{name: IMAGE_FIELD, ...}, {name: VIDEO_FIELD, ...}])`:
each field is present (`IMAGE_FIELD in files`) or absent. -/
structure Files where
  image : Option (List MFile)
  video : Option (List MFile)
deriving DecidableEq, Repr

/-- A media field of the JSON request body (`newTuit[IMAGE_FIELD]`):
absent, a single string, or an array of strings — the code normalises
with `Array.isArray(v) ? v : [v]`. -/
inductive BodyField where
  | absent
  | single (s : String)
  | many (xs : List String)
deriving DecidableEq, Repr

/-- `if (newTuit[FIELD]) { v = Array.isArray(v) ? v : [v] }` with `v`
initialised to `[]`: an absent or falsy (empty-string) field gives
`[]`; note an empty array is truthy in JavaScript and gives `[]` too. -/
def normalizeField : BodyField → List String
  | .absent => []
  | .single s => if s == "" then [] else [s]
  | .many xs => xs

/-- A tuit write request: the JSON body fields the controller reads,
plus the multipart files (absent when the request carried none). -/
structure TuitRequest where
  text : Option String
  image : BodyField
  video : BodyField
  files : Option Files
deriving DecidableEq, Repr

/-- `newImageCount` of the update path: image URLs already present in
the write payload plus the image files carried by the request
(`newImage.length + (files && IMAGE_FIELD in files ? files[IMAGE_FIELD].length : 0)`). -/
def imageContentCount (req : TuitRequest) : Nat :=
  (normalizeField req.image).length +
    (match req.files with
     | some files => (files.image.getD []).length
     | none => 0)

/-- `newVideoCount` of the update path, analogous to `imageContentCount`. -/
def videoContentCount (req : TuitRequest) : Nat :=
  (normalizeField req.video).length +
    (match req.files with
     | some files => (files.video.getD []).length
     | none => 0)

namespace TCv2

/-- `TuitController.createTuitByUser` (the tuit-controller source with
id-validation, lines 143-189; the cited media portion is lines
168-184): after authentication, target-id resolution, id validation,
user-existence and non-empty-text checks, reject a request carrying
both an image file field and a video file field with
`MultiTypeMediaError`; otherwise upload each kind through
`CloudinaryDao.uploadMedia` and create the tuit with the returned URLs.
Returns (outcome, store after the call, trace of upload calls). -/
def createTuitByUser (session : Option User) (uidParam : String)
    (req : TuitRequest) (up : String → String) (newId : String)
    (db : DB) : Except AppError Unit × DB × List String :=
  match checkLogin session with
  | .error e => (.error e, db, [])
  | .ok profile =>
    match getUserId uidParam (some profile) with
    | .error e => (.error e, db, [])
    | .ok userId =>
      if userId == MY then (.error .invalidInput, db, [])
      else if !(isValidId userId) then (.error .invalidInput, db, [])
      else
        match findUserById userId db with
        | none => (.error .noSuchUser, db, [])
        | some _ =>
          if !(truthyField req.text) then (.error .emptyTuit, db, [])
          else
            match req.files with
            | none =>
              (.ok (), createTuitDao userId newId (req.text.getD "") [] [] db, [])
            | some files =>
              if files.image.isSome && files.video.isSome then
                (.error .multiTypeMedia, db, [])
              else
                match uploadMedia files.image IMAGE_LIMIT up with
                | (.error e, tr1) => (.error e, db, tr1)
                | (.ok imageUrls, tr1) =>
                  match uploadMedia files.video VIDEO_LIMIT up with
                  | (.error e, tr2) => (.error e, db, tr1 ++ tr2)
                  | (.ok videoUrls, tr2) =>
                    (.ok (),
                     createTuitDao userId newId (req.text.getD "") imageUrls videoUrls db,
                     tr1 ++ tr2)

/-- The `$set` document `{...req.body, image: newImage, video: newVideo}`
applied by `TuitDao.updateTuit` on the update path: body fields
override the stored ones, and the merged media lists are written. -/
def applySet (text : Option String) (newImage newVideo : List String)
    (t : Tuit) : Tuit :=
  { t with tuit := text.getD t.tuit, image := newImage, video := newVideo }

/-- `TuitController.updateTuit` (same source, lines 196-258; the cited
media checks are lines 228-241): after authentication, resolution,
validation and the `findTuitOwnedByUser` ownership gate, count the
image/video content of body plus files; reject when both kinds are
present, or when a kind exceeds its limit — both rejections use
`MediaContentExceedsLimitError`; then upload the files and persist the
merged media lists.  Returns (outcome, store, trace of upload calls). -/
def updateTuit (session : Option User) (uidParam tidParam : String)
    (req : TuitRequest) (up : String → String)
    (db : DB) : Except AppError Unit × DB × List String :=
  match checkLogin session with
  | .error e => (.error e, db, [])
  | .ok profile =>
    match getUserId uidParam (some profile) with
    | .error e => (.error e, db, [])
    | .ok userId =>
      if userId == MY then (.error .invalidInput, db, [])
      else if !(isValidId userId) || !(isValidId tidParam) then
        (.error .invalidInput, db, [])
      else
        match findTuitOwnedByUser userId tidParam db with
        | none => (.error .noPermission, db, [])
        | some _ =>
          let newImage := normalizeField req.image
          let newVideo := normalizeField req.video
          let newImageCount := imageContentCount req
          let newVideoCount := videoContentCount req
          if newImageCount > 0 && newVideoCount > 0 then
            (.error .mediaContentExceedsLimit, db, [])
          else if newImageCount > IMAGE_LIMIT || newVideoCount > VIDEO_LIMIT then
            (.error .mediaContentExceedsLimit, db, [])
          else
            match req.files with
            | none =>
              (.ok (),
               { db with tuits := db.tuits.map (fun t =>
                   if t._id == tidParam then applySet req.text newImage newVideo t else t) },
               [])
            | some files =>
              match uploadMedia files.image IMAGE_LIMIT up with
              | (.error e, tr1) => (.error e, db, tr1)
              | (.ok imageUrls, tr1) =>
                match uploadMedia files.video VIDEO_LIMIT up with
                | (.error e, tr2) => (.error e, db, tr1 ++ tr2)
                | (.ok videoUrls, tr2) =>
                  (.ok (),
                   { db with tuits := db.tuits.map (fun t =>
                       if t._id == tidParam then
                         applySet req.text (newImage ++ imageUrls) (newVideo ++ videoUrls) t
                       else t) },
                   tr1 ++ tr2)

end TCv2

/-- `TuitController.deleteTuit` (`src/controllers/TuitController.ts`
lines 231-256): after authentication, an admin deletes unconditionally;
otherwise the delete goes through only when `findTuitOwnedByUser`
shows the acting profile owns the tuit, else `NoPermissionError`. -/
def deleteTuit (session : Option User) (tidParam : String)
    (db : DB) : Except AppError Unit × DB :=
  match checkLogin session with
  | .error e => (.error e, db)
  | .ok profile =>
    let userId := profile._id
    if isAdmin profile.username db then
      (.ok (), deleteTuitDao tidParam db)
    else
      match findTuitOwnedByUser userId tidParam db with
      | some _ => (.ok (), deleteTuitDao tidParam db)
      | none => (.error .noPermission, db)

/-! ## Media reconciler (`CloudinaryController.deleteTrashMedia`) -/

/-- A remote object as listed by `CloudinaryDao.findCloudMedia`. -/
structure CloudObj where
  public_id : String
  secure_url : String
deriving DecidableEq, Repr

/-- The kind-partitioned remote listing
(`media[IMAGE_FIELD]`, `media[VIDEO_FIELD]`). -/
structure CloudMedia where
  image : List CloudObj
  video : List CloudObj
deriving DecidableEq, Repr

/-- The external operations the reconciliation endpoint can issue. -/
inductive CloudOp where
  | scanLocal
  | listCloud
  | deleteImages (ids : List String)
  | deleteVideos (ids : List String)
deriving DecidableEq, Repr

/-- `CloudinaryController.findAllLocalMedia`
(`src/controllers/CloudinaryController.ts` lines 86-101): every tuit's
image and video URLs and every user's header/profile image URLs,
collected into one reference set (membership in this list is the
`Set.has` test). -/
def findAllLocalMedia (db : DB) : List String :=
  (db.tuits.map (fun t => t.image ++ t.video)).flatten ++
    (db.users.map (fun u => [u.headerImage, u.profilePhoto])).flatten

/-- The image orphans: the loop over `cloudMedia[IMAGE_FIELD]` keeps
exactly the objects whose `secure_url` is not in the local set and
records their `public_id`. -/
def trashImageIds (db : DB) (cloud : CloudMedia) : List String :=
  ((cloud.image.filter (fun m => !((findAllLocalMedia db).contains m.secure_url))).map
    (fun m => m.public_id))

/-- The video orphans, from the loop over `cloudMedia[VIDEO_FIELD]`. -/
def trashVideoIds (db : DB) (cloud : CloudMedia) : List String :=
  ((cloud.video.filter (fun m => !((findAllLocalMedia db).contains m.secure_url))).map
    (fun m => m.public_id))

/-- `CloudinaryController.deleteTrashMedia`
(`src/controllers/CloudinaryController.ts` lines 35-84): check login,
then the admin gate; only an admin triggers the local scan, the remote
listing, and the kind-partitioned bulk deletes (each issued only when
its orphan list is nonempty).  The second component is the trace of
external operations performed. -/
def deleteTrashMedia (session : Option User) (cloud : CloudMedia)
    (db : DB) : Except AppError Unit × List CloudOp :=
  match checkLogin session with
  | .error e => (.error e, [])
  | .ok profile =>
    if isAdmin profile.username db then
      let trashImages := trashImageIds db cloud
      let trashVideos := trashVideoIds db cloud
      (.ok (),
       [CloudOp.scanLocal, CloudOp.listCloud] ++
         (if trashImages.length > 0 then [CloudOp.deleteImages trashImages] else []) ++
         (if trashVideos.length > 0 then [CloudOp.deleteVideos trashVideos] else []))
    else
      (.error .noPermission, [])

/-! ## Theorems -/

/-- C10: a media-upload call whose assets argument is absent returns
the empty URL list, performs no object-store upload, and raises no
error. -/
theorem absent_assets_yield_empty_upload (limit : Nat) (up : String → String) :
    uploadMedia none limit up = (.ok [], []) := by
  rfl

/-- C6: `uploadMedia` rejects over-limit asset lists with
`MediaContentExceedsLimit` before any upload; within the limit it
issues exactly one upload call per asset (the trace is the encoded
assets, in input order) and collects the returned secure URLs, one per
asset, in input order. -/
theorem upload_limit_and_per_asset_order (fs : List MFile) (limit : Nat)
    (up : String → String) :
    (fs.length > limit →
      uploadMedia (some fs) limit up = (.error .mediaContentExceedsLimit, []))
    ∧ (fs.length ≤ limit →
      uploadMedia (some fs) limit up =
        (.ok (fs.map (fun f => up (dataUri f))), fs.map dataUri)
        ∧ (fs.map (fun f => up (dataUri f))).length = fs.length) := by
  constructor
  · intro h
    simp [uploadMedia, if_pos h]
  · intro h
    constructor
    · simp [uploadMedia, if_neg (Nat.not_lt.mpr h), List.map_map, Function.comp]
    · simp

/-- Witness for C6: two assets against a limit of one are rejected with
`MediaContentExceedsLimit` and nothing is uploaded. -/
theorem upload_limit_witness :
    uploadMedia
      (some [{ mimetype := "image/png", base64 := "AA" },
             { mimetype := "image/png", base64 := "BB" }]) 1 (fun s => s) =
      (.error .mediaContentExceedsLimit, []) :=
  (upload_limit_and_per_asset_order
    [{ mimetype := "image/png", base64 := "AA" },
     { mimetype := "image/png", base64 := "BB" }] 1 (fun s => s)).1 (by decide)

/-- C9: a reconciliation request by a logged-in principal that is not
an admin fails with `NoPermission`, and no local scan, remote listing
or delete operation is performed (the admin gate precedes the scan). -/
theorem reconciliation_requires_admin (p : User) (cloud : CloudMedia) (db : DB)
    (h : isAdmin p.username db = false) :
    deleteTrashMedia (some p) cloud db = (.error .noPermission, []) := by
  simp [deleteTrashMedia, checkLogin, h]

/-- Witness for C9: a concrete non-admin principal is rejected with an
empty operation trace. -/
theorem reconciliation_requires_admin_witness :
    deleteTrashMedia
      (some { _id := "aaaaaaaaaaaaaaaaaaaaaaaa", username := "alice",
              password := "******", profilePhoto := "p", headerImage := "h" })
      { image := [{ public_id := "i1", secure_url := "u1" }], video := [] }
      { tuits := [], likes := [], users := [], admins := ["bob"] } =
      (.error .noPermission, []) :=
  reconciliation_requires_admin
    { _id := "aaaaaaaaaaaaaaaaaaaaaaaa", username := "alice",
      password := "******", profilePhoto := "p", headerImage := "h" }
    { image := [{ public_id := "i1", secure_url := "u1" }], video := [] }
    { tuits := [], likes := [], users := [], admins := ["bob"] }
    (by decide)

/-- C2: for an admin-triggered reconciliation run, the endpoint scans
the local references, lists the remote objects, and bulk-deletes, per
kind, exactly the remote objects whose `secure_url` is not in the local
reference set: every unreferenced remote object's id is in its kind's
delete list, and (ids being keys, pairwise distinct per kind) no
remote object whose url is locally referenced has its id deleted. -/
theorem reconcile_deletes_exactly_orphans (p : User) (cloud : CloudMedia) (db : DB)
    (hadmin : isAdmin p.username db = true)
    (hkeyI : (cloud.image.map (fun m => m.public_id)).Nodup)
    (hkeyV : (cloud.video.map (fun m => m.public_id)).Nodup) :
    deleteTrashMedia (some p) cloud db =
      (.ok (),
       [CloudOp.scanLocal, CloudOp.listCloud] ++
         (if (trashImageIds db cloud).length > 0 then
            [CloudOp.deleteImages (trashImageIds db cloud)] else []) ++
         (if (trashVideoIds db cloud).length > 0 then
            [CloudOp.deleteVideos (trashVideoIds db cloud)] else []))
    ∧ (∀ m ∈ cloud.image, (findAllLocalMedia db).contains m.secure_url = false →
        m.public_id ∈ trashImageIds db cloud)
    ∧ (∀ m ∈ cloud.image, (findAllLocalMedia db).contains m.secure_url = true →
        m.public_id ∉ trashImageIds db cloud)
    ∧ (∀ m ∈ cloud.video, (findAllLocalMedia db).contains m.secure_url = false →
        m.public_id ∈ trashVideoIds db cloud)
    ∧ (∀ m ∈ cloud.video, (findAllLocalMedia db).contains m.secure_url = true →
        m.public_id ∉ trashVideoIds db cloud) := by
  refine ⟨?_, ?_, ?_, ?_, ?_⟩
  · simp [deleteTrashMedia, checkLogin, hadmin]
  · intro m hm hurl
    exact List.mem_map.mpr ⟨m, List.mem_filter.mpr ⟨hm, by rw [hurl]; rfl⟩, rfl⟩
  · intro m hm hurl hmem
    obtain ⟨m2, hm2, hid⟩ := List.mem_map.mp hmem
    have hmem2 := List.mem_filter.mp hm2
    have heq : m2 = m :=
      List.inj_on_of_nodup_map hkeyI (List.mem_of_mem_filter hm2) hm hid
    rw [heq, hurl] at hmem2
    simp at hmem2
  · intro m hm hurl
    exact List.mem_map.mpr ⟨m, List.mem_filter.mpr ⟨hm, by rw [hurl]; rfl⟩, rfl⟩
  · intro m hm hurl hmem
    obtain ⟨m2, hm2, hid⟩ := List.mem_map.mp hmem
    have hmem2 := List.mem_filter.mp hm2
    have heq : m2 = m :=
      List.inj_on_of_nodup_map hkeyV (List.mem_of_mem_filter hm2) hm hid
    rw [heq, hurl] at hmem2
    simp at hmem2

/-- Witness for C2: with local references a and b and remote objects
a, b, c, the run deletes exactly c. -/
theorem reconcile_deletes_exactly_orphans_witness :
    deleteTrashMedia
      (some { _id := "aaaaaaaaaaaaaaaaaaaaaaaa", username := "bob",
              password := "******", profilePhoto := "a", headerImage := "a" })
      { image := [{ public_id := "pa", secure_url := "a" },
                  { public_id := "pb", secure_url := "b" },
                  { public_id := "pc", secure_url := "c" }],
        video := [] }
      { tuits := [{ _id := "cccccccccccccccccccccccc",
                    postedBy := "aaaaaaaaaaaaaaaaaaaaaaaa", tuit := "hi",
                    image := ["b"], video := [], stats := { likes := 0 } }],
        likes := [],
        users := [{ _id := "aaaaaaaaaaaaaaaaaaaaaaaa", username := "bob",
                    password := "******", profilePhoto := "a", headerImage := "a" }],
        admins := ["bob"] } =
      (.ok (), [CloudOp.scanLocal, CloudOp.listCloud, CloudOp.deleteImages ["pc"]]) :=
  (reconcile_deletes_exactly_orphans
    { _id := "aaaaaaaaaaaaaaaaaaaaaaaa", username := "bob",
      password := "******", profilePhoto := "a", headerImage := "a" }
    { image := [{ public_id := "pa", secure_url := "a" },
                { public_id := "pb", secure_url := "b" },
                { public_id := "pc", secure_url := "c" }],
      video := [] }
    { tuits := [{ _id := "cccccccccccccccccccccccc",
                  postedBy := "aaaaaaaaaaaaaaaaaaaaaaaa", tuit := "hi",
                  image := ["b"], video := [], stats := { likes := 0 } }],
      likes := [],
      users := [{ _id := "aaaaaaaaaaaaaaaaaaaaaaaa", username := "bob",
                  password := "******", profilePhoto := "a", headerImage := "a" }],
      admins := ["bob"] }
    (by decide) (by decide) (by decide)).1.trans (by decide)

/-- Writing back a tuit whose stats carry the recomputed like count
leaves every stored tuit with that id holding a count equal to the
number of like records in the (unchanged) like collection. -/
theorem mem_updateTuitDao_likes (tid : String) (tu : Tuit) (db1 : DB)
    (htu : tu.stats.likes = findHowManyLikedTuit tid db1) :
    ∀ t ∈ (updateTuitDao tid tu db1).tuits, t._id = tid →
      t.stats.likes =
        ((updateTuitDao tid tu db1).likes.filter (fun l => l.tuit == tid)).length := by
  intro t ht hid
  simp only [updateTuitDao] at ht ⊢
  obtain ⟨t0, ht0, hmap⟩ := List.mem_map.mp ht
  by_cases h0 : (t0._id == tid) = true
  · rw [if_pos h0] at hmap
    rw [← hmap, htu]
    rfl
  · rw [if_neg h0] at hmap
    rw [← hmap] at hid
    exact absurd (beq_iff_eq.mpr hid) h0

/-- C1: whenever a like toggle completes successfully, every stored
tuit with the toggled id carries a persisted like count equal to the
number of like records for that tuit in the resulting store — the count
is recomputed from the like collection after the ledger mutation and
written back, whatever the count was before. -/
theorem toggle_restores_like_count (session : Option User) (uidParam tid : String)
    (db db2 : DB)
    (h : userTogglesLikesTuit session uidParam tid db = (.ok (), db2)) :
    ∀ t ∈ db2.tuits, t._id = tid →
      t.stats.likes = (db2.likes.filter (fun l => l.tuit == tid)).length := by
  intro t ht hid
  cases session with
  | none => simp [userTogglesLikesTuit, checkLogin] at h
  | some profile =>
    simp only [userTogglesLikesTuit, checkLogin] at h
    split at h
    · simp at h
    · split at h
      · simp at h
      · split at h
        · simp at h
        · have h2 := congrArg Prod.snd h
          simp only at h2
          subst h2
          exact mem_updateTuitDao_likes tid _ _ rfl t ht hid

/-- Witness for C1: a concrete first like on a fresh tuit ends with the
written-back tuit carrying count 1, equal to the one like record
present after the toggle. -/
theorem toggle_restores_like_count_witness :
    ({ _id := "bbbbbbbbbbbbbbbbbbbbbbbb",
       postedBy := "aaaaaaaaaaaaaaaaaaaaaaaa", tuit := "hi",
       image := [], video := [], stats := { likes := 1 } } : Tuit).stats.likes =
      (({ tuits := [{ _id := "bbbbbbbbbbbbbbbbbbbbbbbb",
                      postedBy := "aaaaaaaaaaaaaaaaaaaaaaaa", tuit := "hi",
                      image := [], video := [], stats := { likes := 1 } }],
          likes := [{ tuit := "bbbbbbbbbbbbbbbbbbbbbbbb",
                      likedBy := "aaaaaaaaaaaaaaaaaaaaaaaa" }],
          users := [{ _id := "aaaaaaaaaaaaaaaaaaaaaaaa", username := "alice",
                      password := "******", profilePhoto := "p",
                      headerImage := "h" }],
          admins := [] } : DB).likes.filter
        (fun l => l.tuit == "bbbbbbbbbbbbbbbbbbbbbbbb")).length :=
  toggle_restores_like_count
    (some { _id := "aaaaaaaaaaaaaaaaaaaaaaaa", username := "alice",
            password := "******", profilePhoto := "p", headerImage := "h" })
    "aaaaaaaaaaaaaaaaaaaaaaaa" "bbbbbbbbbbbbbbbbbbbbbbbb"
    { tuits := [{ _id := "bbbbbbbbbbbbbbbbbbbbbbbb",
                  postedBy := "aaaaaaaaaaaaaaaaaaaaaaaa", tuit := "hi",
                  image := [], video := [], stats := { likes := 0 } }],
      likes := [],
      users := [{ _id := "aaaaaaaaaaaaaaaaaaaaaaaa", username := "alice",
                  password := "******", profilePhoto := "p", headerImage := "h" }],
      admins := [] }
    { tuits := [{ _id := "bbbbbbbbbbbbbbbbbbbbbbbb",
                  postedBy := "aaaaaaaaaaaaaaaaaaaaaaaa", tuit := "hi",
                  image := [], video := [], stats := { likes := 1 } }],
      likes := [{ tuit := "bbbbbbbbbbbbbbbbbbbbbbbb",
                  likedBy := "aaaaaaaaaaaaaaaaaaaaaaaa" }],
      users := [{ _id := "aaaaaaaaaaaaaaaaaaaaaaaa", username := "alice",
                  password := "******", profilePhoto := "p", headerImage := "h" }],
      admins := [] }
    (by decide)
    { _id := "bbbbbbbbbbbbbbbbbbbbbbbb",
      postedBy := "aaaaaaaaaaaaaaaaaaaaaaaa", tuit := "hi",
      image := [], video := [], stats := { likes := 1 } }
    (by decide) rfl

/-- C7: a like toggle whose target tuit does not exist fails with
`NoSuchTuit` and leaves the store — like records included — exactly as
it was: the existence check precedes any ledger mutation. -/
theorem toggle_on_missing_tuit_mutates_nothing (p : User) (uidParam tid userId : String)
    (db : DB)
    (hres : getUserId uidParam (some p) = .ok userId)
    (hmy : userId ≠ MY)
    (hnone : findTuitById tid db = none) :
    userTogglesLikesTuit (some p) uidParam tid db = (.error .noSuchTuit, db) := by
  simp only [userTogglesLikesTuit, checkLogin, hres, hnone]
  rw [if_neg (by simp [hmy])]

/-- Witness for C7: toggling a concrete nonexistent tuit id fails with
`NoSuchTuit` and returns the store unchanged. -/
theorem toggle_on_missing_tuit_witness :
    userTogglesLikesTuit
      (some { _id := "aaaaaaaaaaaaaaaaaaaaaaaa", username := "alice",
              password := "******", profilePhoto := "p", headerImage := "h" })
      "aaaaaaaaaaaaaaaaaaaaaaaa" "bbbbbbbbbbbbbbbbbbbbbbbb"
      { tuits := [], likes := [], users := [], admins := [] } =
      (.error .noSuchTuit, { tuits := [], likes := [], users := [], admins := [] }) :=
  toggle_on_missing_tuit_mutates_nothing
    { _id := "aaaaaaaaaaaaaaaaaaaaaaaa", username := "alice",
      password := "******", profilePhoto := "p", headerImage := "h" }
    "aaaaaaaaaaaaaaaaaaaaaaaa" "bbbbbbbbbbbbbbbbbbbbbbbb" "aaaaaaaaaaaaaaaaaaaaaaaa"
    { tuits := [], likes := [], users := [], admins := [] }
    (by decide) (by decide) (by decide)

/-- C5: a login request missing (or empty, which the code treats
alike) either credential field fails with `InvalidInput`; when both
fields are present and a user with that username exists, a failing
stored-credential comparison yields `NoSuchUser`, and a succeeding one
establishes a session whose stored principal has the password field
redacted.  In every failure case the session is untouched. -/
theorem login_contract (body : Credentials) (cmp : String → String → Bool)
    (session : Option User) (db : DB) :
    ((truthyField body.username = false ∨ truthyField body.password = false) →
      login body cmp session db = (.error .invalidInput, session))
    ∧ (∀ uname pw u, body.username = some uname → body.password = some pw →
        uname ≠ "" → pw ≠ "" →
        findUserByUsername uname db = some u →
        ((cmp pw u.password = false →
            login body cmp session db = (.error .noSuchUser, session))
         ∧ (cmp pw u.password = true →
            login body cmp session db =
              (.ok { u with password := "******" },
               some { u with password := "******" })))) := by
  constructor
  · intro hmiss
    rcases hmiss with hm | hm <;> simp [login, hm]
  · intro uname pw u hu hp hune hpne hfind
    have htu : truthyField body.username = true := by
      simp [truthyField, hu, hune]
    have htp : truthyField body.password = true := by
      simp [truthyField, hp, hpne]
    constructor
    · intro hc
      simp [login, htu, htp, hu, hp, hfind, hc]
      exact ⟨hu ▸ htu, hp ▸ htp⟩
    · intro hc
      simp [login, htu, htp, hu, hp, hfind, hc]
      exact ⟨hu ▸ htu, hp ▸ htp⟩

/-- Witness for C5: a concrete login with matching credentials stores a
session principal whose password reads as redacted. -/
theorem login_contract_witness :
    login { username := some "alice", password := some "pw" }
      (fun p d => p ++ "#h" == d) none
      { tuits := [], likes := [],
        users := [{ _id := "aaaaaaaaaaaaaaaaaaaaaaaa", username := "alice",
                    password := "pw#h", profilePhoto := "p", headerImage := "h" }],
        admins := [] } =
      (.ok { _id := "aaaaaaaaaaaaaaaaaaaaaaaa", username := "alice",
             password := "******", profilePhoto := "p", headerImage := "h" },
       some { _id := "aaaaaaaaaaaaaaaaaaaaaaaa", username := "alice",
              password := "******", profilePhoto := "p", headerImage := "h" }) :=
  ((login_contract { username := some "alice", password := some "pw" }
      (fun p d => p ++ "#h" == d) none
      { tuits := [], likes := [],
        users := [{ _id := "aaaaaaaaaaaaaaaaaaaaaaaa", username := "alice",
                    password := "pw#h", profilePhoto := "p", headerImage := "h" }],
        admins := [] }).2 "alice" "pw"
    { _id := "aaaaaaaaaaaaaaaaaaaaaaaa", username := "alice",
      password := "pw#h", profilePhoto := "p", headerImage := "h" }
    rfl rfl (by decide) (by decide) (by decide)).2 (by decide)

/-- Counterexample for C8: the claim promises the session principal's
id whenever the requested id is the "myself" sentinel and a session
principal exists, but when that principal's own id equals the sentinel
string the code fails with `NoUserLoggedIn` instead of returning it. -/
theorem target_id_sentinel_counterexample :
    Legacy.getUserId "my"
      (some { _id := "my", username := "admin", password := "******",
              profilePhoto := "p", headerImage := "h" }) =
        .error .noUserLoggedIn
    ∧ Legacy.getUserId "my"
        (some { _id := "my", username := "admin", password := "******",
                profilePhoto := "p", headerImage := "h" }) ≠ .ok "my" := by
  constructor
  · rfl
  · decide

/-- C8 (amended): target-id resolution returns the session principal's
id when the request carries the "myself" sentinel and a session
principal exists whose own id is not the sentinel string (if it is, the
call fails with `NoUserLoggedIn`); it fails with `NoUserLoggedIn` when
the sentinel is requested with no session; and it returns any
non-sentinel requested id verbatim. -/
theorem target_id_resolution (uidParam : String) (session : Option User) :
    (∀ p, uidParam = MY → session = some p → p._id ≠ MY →
      Legacy.getUserId uidParam session = .ok p._id)
    ∧ (uidParam = MY → session = none →
      Legacy.getUserId uidParam session = .error .noUserLoggedIn)
    ∧ (uidParam ≠ MY → Legacy.getUserId uidParam session = .ok uidParam)
    ∧ (∀ p, uidParam = MY → session = some p → p._id = MY →
      Legacy.getUserId uidParam session = .error .noUserLoggedIn) := by
  refine ⟨?_, ?_, ?_, ?_⟩
  · intro p hmy hs hid
    subst hmy; subst hs
    simp [Legacy.getUserId, hid]
  · intro hmy hs
    subst hmy; subst hs
    simp [Legacy.getUserId]
  · intro hne
    cases session with
    | none => simp [Legacy.getUserId, hne]
    | some p => simp [Legacy.getUserId, hne]
  · intro p hmy hs hid
    subst hmy; subst hs
    simp [Legacy.getUserId, hid]

/-- Witness for C8: with a session principal of ordinary id, requesting
the sentinel resolves to that principal's id. -/
theorem target_id_resolution_witness :
    Legacy.getUserId "my"
      (some { _id := "aaaaaaaaaaaaaaaaaaaaaaaa", username := "alice",
              password := "******", profilePhoto := "p", headerImage := "h" }) =
      .ok "aaaaaaaaaaaaaaaaaaaaaaaa" :=
  (target_id_resolution "my"
      (some { _id := "aaaaaaaaaaaaaaaaaaaaaaaa", username := "alice",
              password := "******", profilePhoto := "p", headerImage := "h" })).1
    { _id := "aaaaaaaaaaaaaaaaaaaaaaaa", username := "alice",
      password := "******", profilePhoto := "p", headerImage := "h" }
    rfl rfl (by decide)

/-- Counterexample for C3: an update request supplying both image and
video content (here one image URL and one video URL in the write
payload) is rejected, but with `MediaContentExceedsLimit`, not the
`MultiTypeMedia` the claim promises. -/
theorem both_media_update_counterexample :
    TCv2.updateTuit
      (some { _id := "aaaaaaaaaaaaaaaaaaaaaaaa", username := "alice",
              password := "******", profilePhoto := "p", headerImage := "h" })
      "aaaaaaaaaaaaaaaaaaaaaaaa" "bbbbbbbbbbbbbbbbbbbbbbbb"
      { text := some "hi", image := .many ["iu"], video := .many ["vu"],
        files := none }
      (fun s => s)
      { tuits := [{ _id := "bbbbbbbbbbbbbbbbbbbbbbbb",
                    postedBy := "aaaaaaaaaaaaaaaaaaaaaaaa", tuit := "old",
                    image := [], video := [], stats := { likes := 0 } }],
        likes := [],
        users := [{ _id := "aaaaaaaaaaaaaaaaaaaaaaaa", username := "alice",
                    password := "******", profilePhoto := "p", headerImage := "h" }],
        admins := [] } =
      (.error .mediaContentExceedsLimit,
       { tuits := [{ _id := "bbbbbbbbbbbbbbbbbbbbbbbb",
                     postedBy := "aaaaaaaaaaaaaaaaaaaaaaaa", tuit := "old",
                     image := [], video := [], stats := { likes := 0 } }],
         likes := [],
         users := [{ _id := "aaaaaaaaaaaaaaaaaaaaaaaa", username := "alice",
                     password := "******", profilePhoto := "p", headerImage := "h" }],
         admins := [] },
       [])
    ∧ AppError.mediaContentExceedsLimit ≠ AppError.multiTypeMedia := by
  constructor
  · decide
  · decide

/-- C3 (amended): a create request that reaches media handling (login,
target resolution, id validity, user existence, non-empty text) and
carries both an image file field and a video file field is rejected
with `MultiTypeMedia`, with the store untouched and no upload
performed; an update request that reaches its media checks (login,
resolution, validity, ownership) and supplies both image content and
video content (payload URLs plus files, per kind) is likewise rejected
wholesale — store untouched, nothing uploaded — but with
`MediaContentExceedsLimit`. -/
theorem media_mutual_exclusion_rejection (p : User)
    (uidParam tidParam userId newId : String)
    (req : TuitRequest) (up : String → String) (db : DB) :
    (getUserId uidParam (some p) = .ok userId → userId ≠ MY →
      isValidId userId = true →
      (findUserById userId db).isSome = true → truthyField req.text = true →
      ∀ files, req.files = some files →
        files.image.isSome = true → files.video.isSome = true →
        TCv2.createTuitByUser (some p) uidParam req up newId db =
          (.error .multiTypeMedia, db, []))
    ∧ (getUserId uidParam (some p) = .ok userId → userId ≠ MY →
      isValidId userId = true → isValidId tidParam = true →
      (findTuitOwnedByUser userId tidParam db).isSome = true →
      imageContentCount req > 0 → videoContentCount req > 0 →
      TCv2.updateTuit (some p) uidParam tidParam req up db =
        (.error .mediaContentExceedsLimit, db, [])) := by
  constructor
  · intro hres hmy hvalid husome htext files hfiles himg hvid
    obtain ⟨u, hu⟩ := Option.isSome_iff_exists.mp husome
    have hmyb : (userId == MY) = false := beq_eq_false_iff_ne.mpr hmy
    simp [TCv2.createTuitByUser, checkLogin, hres, hmyb, hvalid, hu, htext,
      hfiles, himg, hvid]
  · intro hres hmy hvalid hvalidt hown himgc hvidc
    obtain ⟨t, htown⟩ := Option.isSome_iff_exists.mp hown
    have hmyb : (userId == MY) = false := beq_eq_false_iff_ne.mpr hmy
    simp [TCv2.updateTuit, checkLogin, hres, hmyb, hvalid, hvalidt, htown,
      himgc, hvidc]

/-- Witness for C3: a concrete create carrying an image file and a
video file is rejected with `MultiTypeMedia`, the store untouched and
no upload issued. -/
theorem media_mutual_exclusion_witness :
    TCv2.createTuitByUser
      (some { _id := "aaaaaaaaaaaaaaaaaaaaaaaa", username := "alice",
              password := "******", profilePhoto := "p", headerImage := "h" })
      "aaaaaaaaaaaaaaaaaaaaaaaa"
      { text := some "hi", image := .absent, video := .absent,
        files := some { image := some [{ mimetype := "image/png", base64 := "AA" }],
                        video := some [{ mimetype := "video/mp4", base64 := "BB" }] } }
      (fun s => s) "dddddddddddddddddddddddd"
      { tuits := [], likes := [],
        users := [{ _id := "aaaaaaaaaaaaaaaaaaaaaaaa", username := "alice",
                    password := "******", profilePhoto := "p", headerImage := "h" }],
        admins := [] } =
      (.error .multiTypeMedia,
       { tuits := [], likes := [],
         users := [{ _id := "aaaaaaaaaaaaaaaaaaaaaaaa", username := "alice",
                     password := "******", profilePhoto := "p", headerImage := "h" }],
         admins := [] },
       []) :=
  (media_mutual_exclusion_rejection
      { _id := "aaaaaaaaaaaaaaaaaaaaaaaa", username := "alice",
        password := "******", profilePhoto := "p", headerImage := "h" }
      "aaaaaaaaaaaaaaaaaaaaaaaa" "bbbbbbbbbbbbbbbbbbbbbbbb"
      "aaaaaaaaaaaaaaaaaaaaaaaa" "dddddddddddddddddddddddd"
      { text := some "hi", image := .absent, video := .absent,
        files := some { image := some [{ mimetype := "image/png", base64 := "AA" }],
                        video := some [{ mimetype := "video/mp4", base64 := "BB" }] } }
      (fun s => s)
      { tuits := [], likes := [],
        users := [{ _id := "aaaaaaaaaaaaaaaaaaaaaaaa", username := "alice",
                    password := "******", profilePhoto := "p", headerImage := "h" }],
        admins := [] }).1
    (by decide) (by decide) (by decide) (by decide) (by decide)
    { image := some [{ mimetype := "image/png", base64 := "AA" }],
      video := some [{ mimetype := "video/mp4", base64 := "BB" }] }
    rfl (by decide) (by decide)

/-- Counterexample for C4: an admin who does not own the tuit attempts
an update and receives `NoPermission` with the store unchanged — the
update path enforces ownership only, so the claim's "an admin succeeds"
fails for update. -/
theorem admin_update_counterexample :
    TCv2.updateTuit
      (some { _id := "cccccccccccccccccccccccc", username := "admin",
              password := "******", profilePhoto := "p", headerImage := "h" })
      "cccccccccccccccccccccccc" "bbbbbbbbbbbbbbbbbbbbbbbb"
      { text := some "edit", image := .absent, video := .absent, files := none }
      (fun s => s)
      { tuits := [{ _id := "bbbbbbbbbbbbbbbbbbbbbbbb",
                    postedBy := "aaaaaaaaaaaaaaaaaaaaaaaa", tuit := "old",
                    image := [], video := [], stats := { likes := 0 } }],
        likes := [],
        users := [{ _id := "aaaaaaaaaaaaaaaaaaaaaaaa", username := "alice",
                    password := "******", profilePhoto := "p", headerImage := "h" },
                  { _id := "cccccccccccccccccccccccc", username := "admin",
                    password := "******", profilePhoto := "p", headerImage := "h" }],
        admins := ["admin"] } =
      (.error .noPermission,
       { tuits := [{ _id := "bbbbbbbbbbbbbbbbbbbbbbbb",
                     postedBy := "aaaaaaaaaaaaaaaaaaaaaaaa", tuit := "old",
                     image := [], video := [], stats := { likes := 0 } }],
         likes := [],
         users := [{ _id := "aaaaaaaaaaaaaaaaaaaaaaaa", username := "alice",
                     password := "******", profilePhoto := "p", headerImage := "h" },
                   { _id := "cccccccccccccccccccccccc", username := "admin",
                     password := "******", profilePhoto := "p", headerImage := "h" }],
         admins := ["admin"] },
       [])
    ∧ (Except.error AppError.noPermission : Except AppError Unit) ≠ .ok () := by
  constructor
  · decide
  · decide

/-- C4 (amended): an update attempt by any principal — admin or not —
whose resolved id does not own the tuit fails with `NoPermission` and
leaves the store unchanged; a delete attempt by a non-admin non-owner
fails with `NoPermission` and leaves the store unchanged; a delete
attempt by an admin succeeds.  (Update succeeds only for the owner:
the update path never consults admin status.) -/
theorem ownership_gate (p : User) (uidParam tidParam userId : String)
    (req : TuitRequest) (up : String → String) (db : DB) :
    (getUserId uidParam (some p) = .ok userId → userId ≠ MY →
      isValidId userId = true → isValidId tidParam = true →
      findTuitOwnedByUser userId tidParam db = none →
      TCv2.updateTuit (some p) uidParam tidParam req up db =
        (.error .noPermission, db, []))
    ∧ (isAdmin p.username db = false →
      findTuitOwnedByUser p._id tidParam db = none →
      deleteTuit (some p) tidParam db = (.error .noPermission, db))
    ∧ (isAdmin p.username db = true →
      deleteTuit (some p) tidParam db = (.ok (), deleteTuitDao tidParam db)) := by
  refine ⟨?_, ?_, ?_⟩
  · intro hres hmy hvalid hvalidt hown
    have hmyb : (userId == MY) = false := beq_eq_false_iff_ne.mpr hmy
    simp [TCv2.updateTuit, checkLogin, hres, hmyb, hvalid, hvalidt, hown]
  · intro hadmin hown
    simp [deleteTuit, checkLogin, hadmin, hown]
  · intro hadmin
    simp [deleteTuit, checkLogin, hadmin]

/-- Witness for C4: with one tuit owned by alice, a stranger's update
and delete fail with `NoPermission` leaving the store as it was, and an
admin's delete removes the tuit. -/
theorem ownership_gate_witness :
    TCv2.updateTuit
      (some { _id := "cccccccccccccccccccccccc", username := "carol",
              password := "******", profilePhoto := "p", headerImage := "h" })
      "cccccccccccccccccccccccc" "bbbbbbbbbbbbbbbbbbbbbbbb"
      { text := some "edit", image := .absent, video := .absent, files := none }
      (fun s => s)
      { tuits := [{ _id := "bbbbbbbbbbbbbbbbbbbbbbbb",
                    postedBy := "aaaaaaaaaaaaaaaaaaaaaaaa", tuit := "old",
                    image := [], video := [], stats := { likes := 0 } }],
        likes := [], users := [], admins := ["admin"] } =
      (.error .noPermission,
       { tuits := [{ _id := "bbbbbbbbbbbbbbbbbbbbbbbb",
                     postedBy := "aaaaaaaaaaaaaaaaaaaaaaaa", tuit := "old",
                     image := [], video := [], stats := { likes := 0 } }],
         likes := [], users := [], admins := ["admin"] },
       [])
    ∧ deleteTuit
        (some { _id := "cccccccccccccccccccccccc", username := "carol",
                password := "******", profilePhoto := "p", headerImage := "h" })
        "bbbbbbbbbbbbbbbbbbbbbbbb"
        { tuits := [{ _id := "bbbbbbbbbbbbbbbbbbbbbbbb",
                      postedBy := "aaaaaaaaaaaaaaaaaaaaaaaa", tuit := "old",
                      image := [], video := [], stats := { likes := 0 } }],
          likes := [], users := [], admins := ["admin"] } =
        (.error .noPermission,
         { tuits := [{ _id := "bbbbbbbbbbbbbbbbbbbbbbbb",
                       postedBy := "aaaaaaaaaaaaaaaaaaaaaaaa", tuit := "old",
                       image := [], video := [], stats := { likes := 0 } }],
           likes := [], users := [], admins := ["admin"] })
    ∧ deleteTuit
        (some { _id := "dddddddddddddddddddddddd", username := "admin",
                password := "******", profilePhoto := "p", headerImage := "h" })
        "bbbbbbbbbbbbbbbbbbbbbbbb"
        { tuits := [{ _id := "bbbbbbbbbbbbbbbbbbbbbbbb",
                      postedBy := "aaaaaaaaaaaaaaaaaaaaaaaa", tuit := "old",
                      image := [], video := [], stats := { likes := 0 } }],
          likes := [], users := [], admins := ["admin"] } =
        (.ok (), { tuits := [], likes := [], users := [], admins := ["admin"] }) :=
  ⟨(ownership_gate
      { _id := "cccccccccccccccccccccccc", username := "carol",
        password := "******", profilePhoto := "p", headerImage := "h" }
      "cccccccccccccccccccccccc" "bbbbbbbbbbbbbbbbbbbbbbbb" "cccccccccccccccccccccccc"
      { text := some "edit", image := .absent, video := .absent, files := none }
      (fun s => s)
      { tuits := [{ _id := "bbbbbbbbbbbbbbbbbbbbbbbb",
                    postedBy := "aaaaaaaaaaaaaaaaaaaaaaaa", tuit := "old",
                    image := [], video := [], stats := { likes := 0 } }],
        likes := [], users := [], admins := ["admin"] }).1
      (by decide) (by decide) (by decide) (by decide) (by decide),
   (ownership_gate
      { _id := "cccccccccccccccccccccccc", username := "carol",
        password := "******", profilePhoto := "p", headerImage := "h" }
      "cccccccccccccccccccccccc" "bbbbbbbbbbbbbbbbbbbbbbbb" "cccccccccccccccccccccccc"
      { text := some "edit", image := .absent, video := .absent, files := none }
      (fun s => s)
      { tuits := [{ _id := "bbbbbbbbbbbbbbbbbbbbbbbb",
                    postedBy := "aaaaaaaaaaaaaaaaaaaaaaaa", tuit := "old",
                    image := [], video := [], stats := { likes := 0 } }],
        likes := [], users := [], admins := ["admin"] }).2.1
      (by decide) (by decide),
   ((ownership_gate
      { _id := "dddddddddddddddddddddddd", username := "admin",
        password := "******", profilePhoto := "p", headerImage := "h" }
      "dddddddddddddddddddddddd" "bbbbbbbbbbbbbbbbbbbbbbbb" "dddddddddddddddddddddddd"
      { text := some "edit", image := .absent, video := .absent, files := none }
      (fun s => s)
      { tuits := [{ _id := "bbbbbbbbbbbbbbbbbbbbbbbb",
                    postedBy := "aaaaaaaaaaaaaaaaaaaaaaaa", tuit := "old",
                    image := [], video := [], stats := { likes := 0 } }],
        likes := [], users := [], admins := ["admin"] }).2.2
      (by decide)).trans (by decide)⟩

end Tuiter
